import Mathlib

/-!
Verification of the configuration registry of `voice_assistant/config.py`.

The Python module defines a class-level registry `Config` holding three
provider-selection strings (hardcoded constants), seven environment-sourced
values, and a few auxiliary constants, together with a static routine
`validate_config` that checks provider domains and the presence of the
credentials required by the selected providers, raising `ValueError` with a
formatted message on the first violation.

We embed the registry as a record `Config` (quantifying over its field
values models the possible registry states the spec talks about), Python
attribute lookup `getattr(Config, a)` as `getattr`, Python truthiness of a
possibly-absent string as `truthy`, and `validate_config` as a function
`Config → Except String Unit` whose error value is exactly the f-string
message the Python code passes to `ValueError`.
-/

/-- The configuration registry: one field per class attribute of the Python
`Config` class.  The three model-selection fields are plain strings; the
seven values read from the environment with `os.getenv` are `Option String`
(`none` models an absent environment variable). -/
structure Config where
  TRANSCRIPTION_MODEL : String
  RESPONSE_MODEL : String
  TTS_MODEL : String
  PIPER_SERVER_URL : Option String
  PIPER_OUTPUT_FILE : String
  OLLAMA_LLM : String
  GROQ_LLM : String
  OPENAI_LLM : String
  OPENAI_API_KEY : Option String
  GROQ_API_KEY : Option String
  DEEPGRAM_API_KEY : Option String
  ELEVENLABS_API_KEY : Option String
  LOCAL_MODEL_PATH : Option String
  CARTESIA_API_KEY : Option String
  TTS_PORT_LOCAL : Nat
  INPUT_AUDIO : String
  deriving DecidableEq

/-- Python `getattr(Config, attribute)` for the string-valued attributes the
validation code can name.  Attributes that always hold a string are returned
as `some`; the environment-sourced ones are returned as stored.  An unknown
attribute yields `none` (such a lookup never occurs in `validate_config`). -/
def getattr (Cfg : Config) (attr : String) : Option String :=
  if attr = "TRANSCRIPTION_MODEL" then some Cfg.TRANSCRIPTION_MODEL
  else if attr = "RESPONSE_MODEL" then some Cfg.RESPONSE_MODEL
  else if attr = "TTS_MODEL" then some Cfg.TTS_MODEL
  else if attr = "PIPER_SERVER_URL" then Cfg.PIPER_SERVER_URL
  else if attr = "PIPER_OUTPUT_FILE" then some Cfg.PIPER_OUTPUT_FILE
  else if attr = "OLLAMA_LLM" then some Cfg.OLLAMA_LLM
  else if attr = "GROQ_LLM" then some Cfg.GROQ_LLM
  else if attr = "OPENAI_LLM" then some Cfg.OPENAI_LLM
  else if attr = "OPENAI_API_KEY" then Cfg.OPENAI_API_KEY
  else if attr = "GROQ_API_KEY" then Cfg.GROQ_API_KEY
  else if attr = "DEEPGRAM_API_KEY" then Cfg.DEEPGRAM_API_KEY
  else if attr = "ELEVENLABS_API_KEY" then Cfg.ELEVENLABS_API_KEY
  else if attr = "LOCAL_MODEL_PATH" then Cfg.LOCAL_MODEL_PATH
  else if attr = "CARTESIA_API_KEY" then Cfg.CARTESIA_API_KEY
  else if attr = "INPUT_AUDIO" then some Cfg.INPUT_AUDIO
  else none

/-- Python truthiness of a possibly-absent string: `None` and `""` are falsy,
every other string is truthy.  `not getattr(Config, k)` in the source is
`truthy (getattr Cfg k) = false` here. -/
def truthy : Option String → Bool
  | none => false
  | some s => s ≠ ""

/-- Python `str` of a string for interpolation inside a list, i.e. `repr`:
the string wrapped in single quotes (no escaping is needed for the literals
that occur in the source). -/
def pyStrRepr (s : String) : String := "\x27" ++ s ++ "\x27"

/-- Python `str` of a list of strings, as produced by the f-string
`f"... {valid_options}"`: bracketed, comma-space separated, elements in
single quotes. -/
def pyListRepr (l : List String) : String :=
  "[" ++ String.intercalate ", " (l.map pyStrRepr) ++ "]"

/-- The message of the `ValueError` raised by `Config._validate_model`:
`f"Invalid {attribute}. Must be one of {valid_options}"`. -/
def invalid_model_msg (attr : String) (valid_options : List String) : String :=
  "Invalid " ++ attr ++ ". Must be one of " ++ pyListRepr valid_options

/-- The message of the `ValueError` raised by `Config._validate_api_key`:
`f"{api_key_attr} is required for {model_value} models"`. -/
def missing_key_msg (api_key_attr model_value : String) : String :=
  api_key_attr ++ " is required for " ++ model_value ++ " models"

/-- Python membership `model in valid_options` where `model` came from
`getattr` (an absent value is in no list of strings). -/
def opt_in (model : Option String) (valid_options : List String) : Bool :=
  match model with
  | some s => valid_options.contains s
  | none => false

/-- `Config._validate_model(attribute, valid_options)`: looks the attribute
up on the registry and raises `ValueError` when the value is not among the
valid options. -/
def _validate_model (Cfg : Config) (attr : String) (valid_options : List String) :
    Except String Unit :=
  let model := getattr Cfg attr
  if opt_in model valid_options = false then
    Except.error (invalid_model_msg attr valid_options)
  else
    Except.ok ()

/-- `Config._validate_api_key(model_attr, model_value, api_key_attr)`: raises
`ValueError` when the model attribute currently equals `model_value` and the
named key attribute is absent or empty (Python `not getattr(...)`). -/
def _validate_api_key (Cfg : Config) (model_attr model_value api_key_attr : String) :
    Except String Unit :=
  if getattr Cfg model_attr = some model_value ∧ truthy (getattr Cfg api_key_attr) = false then
    Except.error (missing_key_msg api_key_attr model_value)
  else
    Except.ok ()

/-- Sequencing of two possibly-raising statements: the second runs only when
the first did not raise.  This is how consecutive Python statements inside
`validate_config` compose. -/
def andThen (a b : Except String Unit) : Except String Unit :=
  match a with
  | Except.error e => Except.error e
  | Except.ok _ => b

/-- The enumerated domain of `TRANSCRIPTION_MODEL` (the `valid_options` list
passed for it in `validate_config`). -/
def TRANSCRIPTION_DOMAIN : List String :=
  ["openai", "groq", "deepgram", "fastwhisperapi", "local"]

/-- The enumerated domain of `RESPONSE_MODEL`. -/
def RESPONSE_DOMAIN : List String := ["openai", "groq", "ollama", "local"]

/-- The enumerated domain of `TTS_MODEL`. -/
def TTS_DOMAIN : List String :=
  ["openai", "deepgram", "elevenlabs", "melotts", "cartesia", "local", "piper"]

/-- `Config.validate_config()`: the twelve checks of the source in source
order — three domain checks, then nine credential checks. -/
def validate_config (Cfg : Config) : Except String Unit :=
  andThen (_validate_model Cfg "TRANSCRIPTION_MODEL" TRANSCRIPTION_DOMAIN) <|
  andThen (_validate_model Cfg "RESPONSE_MODEL" RESPONSE_DOMAIN) <|
  andThen (_validate_model Cfg "TTS_MODEL" TTS_DOMAIN) <|
  andThen (_validate_api_key Cfg "TRANSCRIPTION_MODEL" "openai" "OPENAI_API_KEY") <|
  andThen (_validate_api_key Cfg "TRANSCRIPTION_MODEL" "groq" "GROQ_API_KEY") <|
  andThen (_validate_api_key Cfg "TRANSCRIPTION_MODEL" "deepgram" "DEEPGRAM_API_KEY") <|
  andThen (_validate_api_key Cfg "RESPONSE_MODEL" "openai" "OPENAI_API_KEY") <|
  andThen (_validate_api_key Cfg "RESPONSE_MODEL" "groq" "GROQ_API_KEY") <|
  andThen (_validate_api_key Cfg "TTS_MODEL" "openai" "OPENAI_API_KEY") <|
  andThen (_validate_api_key Cfg "TTS_MODEL" "deepgram" "DEEPGRAM_API_KEY") <|
  andThen (_validate_api_key Cfg "TTS_MODEL" "elevenlabs" "ELEVENLABS_API_KEY") <|
  (_validate_api_key Cfg "TTS_MODEL" "cartesia" "CARTESIA_API_KEY")

/-- The fixed rule table behind the nine `_validate_api_key` calls, in call
order: `(field, providerValue, requiredCredentialName)`. -/
def rule_table : List (String × String × String) :=
  [("TRANSCRIPTION_MODEL", "openai", "OPENAI_API_KEY"),
   ("TRANSCRIPTION_MODEL", "groq", "GROQ_API_KEY"),
   ("TRANSCRIPTION_MODEL", "deepgram", "DEEPGRAM_API_KEY"),
   ("RESPONSE_MODEL", "openai", "OPENAI_API_KEY"),
   ("RESPONSE_MODEL", "groq", "GROQ_API_KEY"),
   ("TTS_MODEL", "openai", "OPENAI_API_KEY"),
   ("TTS_MODEL", "deepgram", "DEEPGRAM_API_KEY"),
   ("TTS_MODEL", "elevenlabs", "ELEVENLABS_API_KEY"),
   ("TTS_MODEL", "cartesia", "CARTESIA_API_KEY")]

/-- A rule of the table is violated in a given state when its field equals
its provider value while the named credential is absent or empty. -/
def rule_violated (Cfg : Config) (r : String × String × String) : Prop :=
  getattr Cfg r.1 = some r.2.1 ∧ truthy (getattr Cfg r.2.2) = false

instance (Cfg : Config) (r : String × String × String) :
    Decidable (rule_violated Cfg r) := by
  unfold rule_violated; infer_instance

/-- The checks `validate_config` performs, as a list in execution order:
the three domain checks first, then the nine credential checks in rule-table
order. -/
def checks (Cfg : Config) : List (Except String Unit) :=
  [_validate_model Cfg "TRANSCRIPTION_MODEL" TRANSCRIPTION_DOMAIN,
   _validate_model Cfg "RESPONSE_MODEL" RESPONSE_DOMAIN,
   _validate_model Cfg "TTS_MODEL" TTS_DOMAIN] ++
  rule_table.map (fun r => _validate_api_key Cfg r.1 r.2.1 r.2.2)

/-- Fail-fast sequencing of a list of checks: the first raised error, else
silent success. -/
def firstError : List (Except String Unit) → Except String Unit
  | [] => Except.ok ()
  | a :: rest => andThen a (firstError rest)

/-- The compiled-in registry state: hardcoded model selections
(`deepgram` / `openai` / `openai`), constants, and the environment-sourced
values read through `os.getenv`, here abstracted as a lookup function `env`. -/
def mkDefaultConfig (env : String → Option String) : Config :=
  { TRANSCRIPTION_MODEL := "deepgram"
    RESPONSE_MODEL := "openai"
    TTS_MODEL := "openai"
    PIPER_SERVER_URL := env "PIPER_SERVER_URL"
    PIPER_OUTPUT_FILE := "output.wav"
    OLLAMA_LLM := "llama3:8b"
    GROQ_LLM := "llama3-8b-8192"
    OPENAI_LLM := "gpt-4o"
    OPENAI_API_KEY := env "OPENAI_API_KEY"
    GROQ_API_KEY := env "GROQ_API_KEY"
    DEEPGRAM_API_KEY := env "DEEPGRAM_API_KEY"
    ELEVENLABS_API_KEY := env "ELEVENLABS_API_KEY"
    LOCAL_MODEL_PATH := env "LOCAL_MODEL_PATH"
    CARTESIA_API_KEY := env "CARTESIA_API_KEY"
    TTS_PORT_LOCAL := 5150
    INPUT_AUDIO := "test.mp3" }

/-- Statement-by-statement state-passing embedding of `validate_config`:
each check is run on the current registry state and, the Python body of the
helpers containing only attribute reads and `raise` (no assignment), leaves
the state it was given; a raised error aborts the remaining statements. -/
def run_checks : List (Config → Except String Unit) → Config → Except String Unit × Config
  | [], Cfg => (Except.ok (), Cfg)
  | chk :: rest, Cfg =>
    match chk Cfg with
    | Except.error e => (Except.error e, Cfg)
    | Except.ok _ => run_checks rest Cfg

/-- The twelve statements of `validate_config`, in source order, as checks to
be run against a registry state. -/
def check_list : List (Config → Except String Unit) :=
  [fun c => _validate_model c "TRANSCRIPTION_MODEL" TRANSCRIPTION_DOMAIN,
   fun c => _validate_model c "RESPONSE_MODEL" RESPONSE_DOMAIN,
   fun c => _validate_model c "TTS_MODEL" TTS_DOMAIN,
   fun c => _validate_api_key c "TRANSCRIPTION_MODEL" "openai" "OPENAI_API_KEY",
   fun c => _validate_api_key c "TRANSCRIPTION_MODEL" "groq" "GROQ_API_KEY",
   fun c => _validate_api_key c "TRANSCRIPTION_MODEL" "deepgram" "DEEPGRAM_API_KEY",
   fun c => _validate_api_key c "RESPONSE_MODEL" "openai" "OPENAI_API_KEY",
   fun c => _validate_api_key c "RESPONSE_MODEL" "groq" "GROQ_API_KEY",
   fun c => _validate_api_key c "TTS_MODEL" "openai" "OPENAI_API_KEY",
   fun c => _validate_api_key c "TTS_MODEL" "deepgram" "DEEPGRAM_API_KEY",
   fun c => _validate_api_key c "TTS_MODEL" "elevenlabs" "ELEVENLABS_API_KEY",
   fun c => _validate_api_key c "TTS_MODEL" "cartesia" "CARTESIA_API_KEY"]

/-- `validate_config` as a state transformer: returns its outcome together
with the registry state left behind by the run. -/
def validate_config_run (Cfg : Config) : Except String Unit × Config :=
  run_checks check_list Cfg

lemma getattr_TRANSCRIPTION (c : Config) :
    getattr c "TRANSCRIPTION_MODEL" = some c.TRANSCRIPTION_MODEL := rfl

lemma getattr_RESPONSE (c : Config) :
    getattr c "RESPONSE_MODEL" = some c.RESPONSE_MODEL := rfl

lemma getattr_TTS (c : Config) : getattr c "TTS_MODEL" = some c.TTS_MODEL := rfl

lemma getattr_OPENAI (c : Config) : getattr c "OPENAI_API_KEY" = c.OPENAI_API_KEY := rfl

lemma getattr_GROQ (c : Config) : getattr c "GROQ_API_KEY" = c.GROQ_API_KEY := rfl

lemma getattr_DEEPGRAM (c : Config) : getattr c "DEEPGRAM_API_KEY" = c.DEEPGRAM_API_KEY := rfl

lemma getattr_ELEVENLABS (c : Config) :
    getattr c "ELEVENLABS_API_KEY" = c.ELEVENLABS_API_KEY := rfl

lemma getattr_CARTESIA (c : Config) : getattr c "CARTESIA_API_KEY" = c.CARTESIA_API_KEY := rfl

lemma andThen_ok_right (a : Except String Unit) : andThen a (Except.ok ()) = a := by
  cases a with
  | error e => rfl
  | ok u => cases u; rfl

lemma andThen_eq_ok (a b : Except String Unit) :
    andThen a b = Except.ok () ↔ a = Except.ok () ∧ b = Except.ok () := by
  cases a with
  | error e => simp [andThen]
  | ok u => cases u; simp [andThen]

lemma _validate_model_ok_iff (c : Config) (a : String) (opts : List String) :
    _validate_model c a opts = Except.ok () ↔ opt_in (getattr c a) opts = true := by
  unfold _validate_model
  dsimp only
  split_ifs with h
  · simp [h]
  · simp at h
    simp [h]

lemma _validate_api_key_ok_iff (c : Config) (f v k : String) :
    _validate_api_key c f v k = Except.ok () ↔
      (getattr c f = some v → truthy (getattr c k) = true) := by
  unfold _validate_api_key
  split_ifs with h
  · simp [h.1, h.2]
  · push_neg at h
    simp only [Except.ok.injEq, true_iff]
    intro hm
    rcases Bool.eq_false_or_eq_true (truthy (getattr c k)) with hb | hb
    · exact hb
    · exact absurd hb (h hm)

lemma firstError_ok_iff (l : List (Except String Unit)) :
    firstError l = Except.ok () ↔ ∀ a ∈ l, a = Except.ok () := by
  induction l with
  | nil => simp [firstError]
  | cons a rest ih =>
    cases a with
    | error e => simp [firstError, andThen]
    | ok u => cases u; simp [firstError, andThen, ih]

lemma firstError_error_of (l : List (Except String Unit)) (i : Nat) (h : i < l.length)
    (e : String) (hi : l.get ⟨i, h⟩ = Except.error e)
    (hb : ∀ j (hj : j < i), l.get ⟨j, Nat.lt_trans hj h⟩ = Except.ok ()) :
    firstError l = Except.error e := by
  induction l generalizing i with
  | nil => exact absurd h (Nat.not_lt_zero i)
  | cons a rest ih =>
    cases i with
    | zero =>
      simp only [List.get] at hi
      simp [firstError, hi, andThen]
    | succ n =>
      have ha : a = Except.ok () := hb 0 (Nat.succ_pos n)
      simp only [List.get] at hi
      rw [firstError, ha]
      have hb' : ∀ j (hj : j < n),
          rest.get ⟨j, Nat.lt_trans hj (Nat.lt_of_succ_lt_succ h)⟩ = Except.ok () := by
        intro j hj
        exact hb (j + 1) (Nat.succ_lt_succ hj)
      exact ih n (Nat.lt_of_succ_lt_succ h) hi hb'

lemma validate_config_eq_firstError (c : Config) : validate_config c = firstError (checks c) := by
  simp only [checks, rule_table, TRANSCRIPTION_DOMAIN, RESPONSE_DOMAIN, TTS_DOMAIN,
    List.map, List.cons_append, List.nil_append, firstError, andThen_ok_right]
  rfl

lemma validate_config_ok_iff (c : Config) :
    validate_config c = Except.ok () ↔
      (opt_in (getattr c "TRANSCRIPTION_MODEL") TRANSCRIPTION_DOMAIN = true ∧
       opt_in (getattr c "RESPONSE_MODEL") RESPONSE_DOMAIN = true ∧
       opt_in (getattr c "TTS_MODEL") TTS_DOMAIN = true ∧
       ∀ r ∈ rule_table, getattr c r.1 = some r.2.1 → truthy (getattr c r.2.2) = true) := by
  rw [validate_config_eq_firstError, firstError_ok_iff]
  constructor
  · intro h
    refine ⟨?_, ?_, ?_, ?_⟩
    · exact (_validate_model_ok_iff c _ _).1
        (h _ (by simp [checks]))
    · exact (_validate_model_ok_iff c _ _).1
        (h _ (by simp [checks]))
    · exact (_validate_model_ok_iff c _ _).1
        (h _ (by simp [checks]))
    · intro r hr
      refine (_validate_api_key_ok_iff c r.1 r.2.1 r.2.2).1 (h _ ?_)
      simp only [checks, List.mem_append, List.mem_cons]
      right
      exact List.mem_map_of_mem _ hr
  · rintro ⟨h1, h2, h3, h4⟩ a ha
    simp only [checks, List.mem_append, List.mem_cons, List.mem_singleton, List.mem_map] at ha
    rcases ha with ((rfl | rfl | rfl | hfalse) | ⟨r, hr, rfl⟩)
    · exact (_validate_model_ok_iff c _ _).2 h1
    · exact (_validate_model_ok_iff c _ _).2 h2
    · exact (_validate_model_ok_iff c _ _).2 h3
    · exact absurd hfalse (List.not_mem_nil a)
    · exact (_validate_api_key_ok_iff c r.1 r.2.1 r.2.2).2 (h4 r hr)

lemma run_checks_spec (l : List (Config → Except String Unit)) (c : Config) :
    run_checks l c = (firstError (l.map (fun chk => chk c)), c) := by
  induction l with
  | nil => rfl
  | cons chk rest ih =>
    rw [run_checks]
    cases h : chk c with
    | error e => simp [List.map, firstError, h, andThen]
    | ok u => cases u; simp [List.map, firstError, h, andThen, ih]

lemma check_list_map (c : Config) : check_list.map (fun chk => chk c) = checks c := by
  simp [check_list, checks, rule_table, TRANSCRIPTION_DOMAIN, RESPONSE_DOMAIN, TTS_DOMAIN]

lemma validate_config_run_spec (c : Config) :
    validate_config_run c = (validate_config c, c) := by
  rw [validate_config_run, run_checks_spec, check_list_map, validate_config_eq_firstError]

instance : DecidableEq (Except String Unit)
  | Except.error e1, Except.error e2 =>
    if h : e1 = e2 then isTrue (by rw [h]) else isFalse (by simp [h])
  | Except.error _, Except.ok _ => isFalse (by simp)
  | Except.ok _, Except.error _ => isFalse (by simp)
  | Except.ok u, Except.ok v => isTrue (by cases u; cases v; rfl)

lemma opt_in_eq_true (s : String) (l : List String) : opt_in (some s) l = true ↔ s ∈ l := by
  simp [opt_in, List.elem_iff]

lemma opt_in_eq_false (s : String) (l : List String) : opt_in (some s) l = false ↔ s ∉ l := by
  constructor
  · intro h hm
    have ht := (opt_in_eq_true s l).2 hm
    rw [h] at ht
    exact Bool.false_ne_true ht
  · intro h
    cases hb : opt_in (some s) l
    · rfl
    · exact absurd ((opt_in_eq_true s l).1 hb) h

lemma _validate_model_error_of (c : Config) (a : String) (opts : List String)
    (h : opt_in (getattr c a) opts = false) :
    _validate_model c a opts = Except.error (invalid_model_msg a opts) := by
  unfold _validate_model
  dsimp only
  rw [if_pos h]

lemma _validate_model_ok_of (c : Config) (a : String) (opts : List String)
    (h : opt_in (getattr c a) opts = true) :
    _validate_model c a opts = Except.ok () :=
  (_validate_model_ok_iff c a opts).2 h

lemma _validate_api_key_violated (c : Config) (r : String × String × String)
    (h : rule_violated c r) :
    _validate_api_key c r.1 r.2.1 r.2.2 = Except.error (missing_key_msg r.2.2 r.2.1) := by
  unfold rule_violated at h
  unfold _validate_api_key
  rw [if_pos h]

lemma _validate_api_key_not_violated (c : Config) (r : String × String × String)
    (h : ¬ rule_violated c r) :
    _validate_api_key c r.1 r.2.1 r.2.2 = Except.ok () := by
  unfold rule_violated at h
  unfold _validate_api_key
  rw [if_neg h]

/-- A registry state with the compiled-in constants, every environment value
absent; used as the base point of the concrete states below. -/
def cfg_base : Config :=
  { TRANSCRIPTION_MODEL := "deepgram"
    RESPONSE_MODEL := "openai"
    TTS_MODEL := "openai"
    PIPER_SERVER_URL := none
    PIPER_OUTPUT_FILE := "output.wav"
    OLLAMA_LLM := "llama3:8b"
    GROQ_LLM := "llama3-8b-8192"
    OPENAI_LLM := "gpt-4o"
    OPENAI_API_KEY := none
    GROQ_API_KEY := none
    DEEPGRAM_API_KEY := none
    ELEVENLABS_API_KEY := none
    LOCAL_MODEL_PATH := none
    CARTESIA_API_KEY := none
    TTS_PORT_LOCAL := 5150
    INPUT_AUDIO := "test.mp3" }

/-- C1: for every assignment of the three provider-selection fields to values
within their enumerated domains, if every credential named by a rule of the
fixed rule table whose (field, providerValue) pair matches the current
selection is present and non-empty, then `validate_config` returns without
raising any error. -/
theorem C1_valid_selections_with_credentials_ok (c : Config)
    (h1 : c.TRANSCRIPTION_MODEL ∈ TRANSCRIPTION_DOMAIN)
    (h2 : c.RESPONSE_MODEL ∈ RESPONSE_DOMAIN)
    (h3 : c.TTS_MODEL ∈ TTS_DOMAIN)
    (hcred : ∀ r ∈ rule_table, getattr c r.1 = some r.2.1 → truthy (getattr c r.2.2) = true) :
    validate_config c = Except.ok () := by
  rw [validate_config_ok_iff]
  refine ⟨?_, ?_, ?_, hcred⟩
  · rw [getattr_TRANSCRIPTION]
    exact (opt_in_eq_true _ _).2 h1
  · rw [getattr_RESPONSE]
    exact (opt_in_eq_true _ _).2 h2
  · rw [getattr_TTS]
    exact (opt_in_eq_true _ _).2 h3

/-- C1 witness: a concrete in-domain state (`openai`/`openai`/`openai` with
`OPENAI_API_KEY` set) validates. -/
theorem C1_valid_selections_with_credentials_ok_witness :
    validate_config { cfg_base with
      TRANSCRIPTION_MODEL := "openai", RESPONSE_MODEL := "openai",
      TTS_MODEL := "openai", OPENAI_API_KEY := some "sk-test" } = Except.ok () :=
  C1_valid_selections_with_credentials_ok _ (by decide) (by decide) (by decide) (by decide)

lemma checks_length (c : Config) : (checks c).length = 3 + rule_table.length := by
  simp [checks]
  omega

lemma checks_get_rule (c : Config) (j : Nat) (hj : j < rule_table.length)
    (hj3 : 3 + j < (checks c).length) :
    (checks c).get ⟨3 + j, hj3⟩ =
      _validate_api_key c (rule_table.get ⟨j, hj⟩).1 (rule_table.get ⟨j, hj⟩).2.1
        (rule_table.get ⟨j, hj⟩).2.2 := by
  simp only [checks, List.get_eq_getElem]
  rw [List.getElem_append_right (by simp)]
  simp [List.getElem_map]

/-- C2: whenever the three provider fields are in their domains, some rule of
the fixed 9-rule table is violated (its field equals its provider value while
the named credential is absent or empty), and no earlier rule of the table is
violated, `validate_config` fails with the `MissingCredential` message naming
that rule's credential and provider value. -/
theorem C2_first_violated_rule_reported (c : Config) (i : Nat) (hi : i < rule_table.length)
    (h1 : c.TRANSCRIPTION_MODEL ∈ TRANSCRIPTION_DOMAIN)
    (h2 : c.RESPONSE_MODEL ∈ RESPONSE_DOMAIN)
    (h3 : c.TTS_MODEL ∈ TTS_DOMAIN)
    (hviol : rule_violated c (rule_table.get ⟨i, hi⟩))
    (hearlier : ∀ j (hj : j < i), ¬ rule_violated c (rule_table.get ⟨j, Nat.lt_trans hj hi⟩)) :
    validate_config c = Except.error
      (missing_key_msg (rule_table.get ⟨i, hi⟩).2.2 (rule_table.get ⟨i, hi⟩).2.1) := by
  rw [validate_config_eq_firstError]
  have hlen := checks_length c
  have hpos : 3 + i < (checks c).length := by omega
  apply firstError_error_of (checks c) (3 + i) hpos
  · rw [checks_get_rule c i hi hpos]
    exact _validate_api_key_violated c _ hviol
  · intro j hj
    by_cases hj3 : j < 3
    · interval_cases j
      · simpa [checks] using _validate_model_ok_of c "TRANSCRIPTION_MODEL" TRANSCRIPTION_DOMAIN
          (by rw [getattr_TRANSCRIPTION]; exact (opt_in_eq_true _ _).2 h1)
      · simpa [checks] using _validate_model_ok_of c "RESPONSE_MODEL" RESPONSE_DOMAIN
          (by rw [getattr_RESPONSE]; exact (opt_in_eq_true _ _).2 h2)
      · simpa [checks] using _validate_model_ok_of c "TTS_MODEL" TTS_DOMAIN
          (by rw [getattr_TTS]; exact (opt_in_eq_true _ _).2 h3)
    · obtain ⟨j', rfl⟩ : ∃ j', j = 3 + j' := ⟨j - 3, by omega⟩
      have hj'i : j' < i := by omega
      have hj'r : j' < rule_table.length := Nat.lt_trans hj'i hi
      rw [checks_get_rule c j' hj'r]
      exact _validate_api_key_not_violated c _ (hearlier j' hj'i)

/-- C2 witness: the particular instance named by the claim —
`TRANSCRIPTION_MODEL = "openai"` with `OPENAI_API_KEY` absent (the first rule
of the table, so no earlier rule is violated) fails with
`OPENAI_API_KEY is required for openai models`. -/
theorem C2_first_violated_rule_reported_witness :
    validate_config { cfg_base with
      TRANSCRIPTION_MODEL := "openai", RESPONSE_MODEL := "local", TTS_MODEL := "local" } =
      Except.error (missing_key_msg "OPENAI_API_KEY" "openai") :=
  C2_first_violated_rule_reported _ 0 (by decide) (by decide) (by decide) (by decide)
    (by decide) (fun j hj => absurd hj (Nat.not_lt_zero j))

/-- C3 counterexample: two registry states that differ only in the (out-of-
domain) value of `TRANSCRIPTION_MODEL` fail with the *identical* error — the
message built by `_validate_model` names the field and the allowed set but
not the offending value, so the error cannot identify the offending value as
the claim states. -/
theorem C3_error_lacks_offending_value :
    ({ cfg_base with TRANSCRIPTION_MODEL := "whisperx" } : Config).TRANSCRIPTION_MODEL ∉
      TRANSCRIPTION_DOMAIN ∧
    ({ cfg_base with TRANSCRIPTION_MODEL := "assemblyai" } : Config).TRANSCRIPTION_MODEL ∉
      TRANSCRIPTION_DOMAIN ∧
    ({ cfg_base with TRANSCRIPTION_MODEL := "whisperx" } : Config).TRANSCRIPTION_MODEL ≠
      ({ cfg_base with TRANSCRIPTION_MODEL := "assemblyai" } : Config).TRANSCRIPTION_MODEL ∧
    validate_config { cfg_base with TRANSCRIPTION_MODEL := "whisperx" } =
      Except.error (invalid_model_msg "TRANSCRIPTION_MODEL" TRANSCRIPTION_DOMAIN) ∧
    validate_config { cfg_base with TRANSCRIPTION_MODEL := "assemblyai" } =
      validate_config { cfg_base with TRANSCRIPTION_MODEL := "whisperx" } := by
  refine ⟨by decide, by decide, by decide, by decide, by decide⟩

/-- C3 (amended): for every registry state in which some provider-selection
field holds a value outside its enumerated domain, `validate_config` fails
with an `InvalidProviderSelection` (`ValueError`) whose message identifies
the field name and the allowed set of values for that field — but not the
offending value; the field reported is the first out-of-domain one in
declaration order. -/
theorem C3_amended_invalid_selection_error (c : Config) :
    (c.TRANSCRIPTION_MODEL ∉ TRANSCRIPTION_DOMAIN →
      validate_config c =
        Except.error (invalid_model_msg "TRANSCRIPTION_MODEL" TRANSCRIPTION_DOMAIN)) ∧
    (c.TRANSCRIPTION_MODEL ∈ TRANSCRIPTION_DOMAIN → c.RESPONSE_MODEL ∉ RESPONSE_DOMAIN →
      validate_config c =
        Except.error (invalid_model_msg "RESPONSE_MODEL" RESPONSE_DOMAIN)) ∧
    (c.TRANSCRIPTION_MODEL ∈ TRANSCRIPTION_DOMAIN → c.RESPONSE_MODEL ∈ RESPONSE_DOMAIN →
      c.TTS_MODEL ∉ TTS_DOMAIN →
      validate_config c = Except.error (invalid_model_msg "TTS_MODEL" TTS_DOMAIN)) := by
  refine ⟨?_, ?_, ?_⟩
  · intro h
    rw [validate_config, _validate_model_error_of c "TRANSCRIPTION_MODEL" TRANSCRIPTION_DOMAIN
      (by rw [getattr_TRANSCRIPTION]; exact (opt_in_eq_false _ _).2 h)]
    rfl
  · intro h1 h
    rw [validate_config, _validate_model_ok_of c "TRANSCRIPTION_MODEL" TRANSCRIPTION_DOMAIN
      (by rw [getattr_TRANSCRIPTION]; exact (opt_in_eq_true _ _).2 h1),
      _validate_model_error_of c "RESPONSE_MODEL" RESPONSE_DOMAIN
      (by rw [getattr_RESPONSE]; exact (opt_in_eq_false _ _).2 h)]
    rfl
  · intro h1 h2 h
    rw [validate_config, _validate_model_ok_of c "TRANSCRIPTION_MODEL" TRANSCRIPTION_DOMAIN
      (by rw [getattr_TRANSCRIPTION]; exact (opt_in_eq_true _ _).2 h1),
      _validate_model_ok_of c "RESPONSE_MODEL" RESPONSE_DOMAIN
      (by rw [getattr_RESPONSE]; exact (opt_in_eq_true _ _).2 h2),
      _validate_model_error_of c "TTS_MODEL" TTS_DOMAIN
      (by rw [getattr_TTS]; exact (opt_in_eq_false _ _).2 h)]
    rfl

/-- C3 (amended) witness: an out-of-domain `TTS_MODEL` with the two other
fields in-domain is reported as an invalid `TTS_MODEL`. -/
theorem C3_amended_invalid_selection_error_witness :
    validate_config { cfg_base with TTS_MODEL := "espeak" } =
      Except.error (invalid_model_msg "TTS_MODEL" TTS_DOMAIN) :=
  (C3_amended_invalid_selection_error { cfg_base with TTS_MODEL := "espeak" }).2.2
    (by decide) (by decide) (by decide)

/-- C4: `validate_config` runs the three provider-domain checks first, in
field declaration order, then the nine credential checks in rule-table
order, stopping at the first failure (`firstError` over `checks`, which is
the domain-check list followed by the mapped rule table); consequently, when
any field is out of domain the reported error is the
`InvalidProviderSelection` for the first out-of-domain field, regardless of
any credential violation. -/
theorem C4_check_order_and_fail_fast (c : Config) :
    validate_config c = firstError (checks c) ∧
    (opt_in (getattr c "TRANSCRIPTION_MODEL") TRANSCRIPTION_DOMAIN = false →
      validate_config c =
        Except.error (invalid_model_msg "TRANSCRIPTION_MODEL" TRANSCRIPTION_DOMAIN)) ∧
    (opt_in (getattr c "TRANSCRIPTION_MODEL") TRANSCRIPTION_DOMAIN = true →
      opt_in (getattr c "RESPONSE_MODEL") RESPONSE_DOMAIN = false →
      validate_config c =
        Except.error (invalid_model_msg "RESPONSE_MODEL" RESPONSE_DOMAIN)) ∧
    (opt_in (getattr c "TRANSCRIPTION_MODEL") TRANSCRIPTION_DOMAIN = true →
      opt_in (getattr c "RESPONSE_MODEL") RESPONSE_DOMAIN = true →
      opt_in (getattr c "TTS_MODEL") TTS_DOMAIN = false →
      validate_config c = Except.error (invalid_model_msg "TTS_MODEL" TTS_DOMAIN)) := by
  refine ⟨validate_config_eq_firstError c, ?_, ?_, ?_⟩
  · intro h
    rw [validate_config, _validate_model_error_of c "TRANSCRIPTION_MODEL" TRANSCRIPTION_DOMAIN h]
    rfl
  · intro h1 h
    rw [validate_config, _validate_model_ok_of c "TRANSCRIPTION_MODEL" TRANSCRIPTION_DOMAIN h1,
      _validate_model_error_of c "RESPONSE_MODEL" RESPONSE_DOMAIN h]
    rfl
  · intro h1 h2 h
    rw [validate_config, _validate_model_ok_of c "TRANSCRIPTION_MODEL" TRANSCRIPTION_DOMAIN h1,
      _validate_model_ok_of c "RESPONSE_MODEL" RESPONSE_DOMAIN h2,
      _validate_model_error_of c "TTS_MODEL" TTS_DOMAIN h]
    rfl

/-- C4 witness: in a state with both a domain violation (`RESPONSE_MODEL`)
and a credential violation (`TTS_MODEL = "openai"` with no key), the domain
violation is the one reported. -/
theorem C4_check_order_and_fail_fast_witness :
    validate_config { cfg_base with RESPONSE_MODEL := "mistral" } =
      Except.error (invalid_model_msg "RESPONSE_MODEL" RESPONSE_DOMAIN) :=
  (C4_check_order_and_fail_fast { cfg_base with RESPONSE_MODEL := "mistral" }).2.2.1
    (by decide) (by decide)

/-- C5: with `deepgram`/`openai`/`elevenlabs` selected, `DEEPGRAM_API_KEY`
and `OPENAI_API_KEY` present and non-empty, and `ELEVENLABS_API_KEY` absent,
`validate_config` fails with
`ELEVENLABS_API_KEY is required for elevenlabs models`. -/
theorem C5_elevenlabs_scenario (c : Config)
    (h1 : c.TRANSCRIPTION_MODEL = "deepgram")
    (h2 : c.RESPONSE_MODEL = "openai")
    (h3 : c.TTS_MODEL = "elevenlabs")
    (h4 : truthy c.DEEPGRAM_API_KEY = true)
    (h5 : truthy c.OPENAI_API_KEY = true)
    (h6 : c.ELEVENLABS_API_KEY = none) :
    validate_config c = Except.error (missing_key_msg "ELEVENLABS_API_KEY" "elevenlabs") := by
  have h6t : truthy c.ELEVENLABS_API_KEY = false := by rw [h6]; rfl
  simp [validate_config, _validate_model, _validate_api_key, getattr, opt_in, andThen,
    TRANSCRIPTION_DOMAIN, RESPONSE_DOMAIN, TTS_DOMAIN, h1, h2, h3, h4, h5, h6t]

/-- C5 witness: the scenario at a concrete state. -/
theorem C5_elevenlabs_scenario_witness :
    validate_config { cfg_base with
      TTS_MODEL := "elevenlabs"
      DEEPGRAM_API_KEY := some "dg-key"
      OPENAI_API_KEY := some "oa-key" } =
      Except.error (missing_key_msg "ELEVENLABS_API_KEY" "elevenlabs") :=
  C5_elevenlabs_scenario _ (by decide) (by decide) (by decide) (by decide) (by decide)
    (by decide)

/-- C6: when all three provider fields hold in-domain values that appear in
no rule of the credential-requiring table (`fastwhisperapi`/`local` for
transcription, `ollama`/`local` for response, `melotts`/`local`/`piper` for
TTS), `validate_config` succeeds whatever the credentials — in particular
when every credential is absent. -/
theorem C6_no_rule_values_need_no_credentials (c : Config)
    (h1 : c.TRANSCRIPTION_MODEL ∈ ["fastwhisperapi", "local"])
    (h2 : c.RESPONSE_MODEL ∈ ["ollama", "local"])
    (h3 : c.TTS_MODEL ∈ ["melotts", "local", "piper"]) :
    validate_config c = Except.ok () := by
  simp only [List.mem_cons, List.mem_singleton, List.not_mem_nil, or_false] at h1 h2 h3
  rcases h1 with h1 | h1 <;> rcases h2 with h2 | h2 <;> rcases h3 with h3 | h3 | h3 <;>
    simp [validate_config, _validate_model, _validate_api_key, getattr, opt_in, andThen,
      TRANSCRIPTION_DOMAIN, RESPONSE_DOMAIN, TTS_DOMAIN, h1, h2, h3]

/-- C6 witness: `local`/`ollama`/`piper` with every credential absent
validates. -/
theorem C6_no_rule_values_need_no_credentials_witness :
    validate_config { cfg_base with
      TRANSCRIPTION_MODEL := "local"
      RESPONSE_MODEL := "ollama"
      TTS_MODEL := "piper" } = Except.ok () :=
  C6_no_rule_values_need_no_credentials _ (by decide) (by decide) (by decide)

/-- C7: running `validate_config` a second time on the registry state left
behind by a first run produces exactly the same outcome and the same state —
invoking it twice with the registry unchanged in between gives the same
result both times. -/
theorem C7_idempotent (c : Config) :
    validate_config_run ((validate_config_run c).2) = validate_config_run c := by
  rw [validate_config_run_spec c]
  exact validate_config_run_spec c

/-- C8: `validate_config` has no side effects — whether it succeeds or fails,
the registry state after the run is exactly the state before it, and the
outcome is the pure function of the state. -/
theorem C8_no_side_effects (c : Config) :
    (validate_config_run c).2 = c ∧ (validate_config_run c).1 = validate_config c := by
  rw [validate_config_run_spec c]
  exact ⟨rfl, rfl⟩

/-- C9: with the compiled-in default selections
(`deepgram`/`openai`/`openai`), validation succeeds exactly when both
`DEEPGRAM_API_KEY` and `OPENAI_API_KEY` are present and non-empty, and the
whole outcome depends on no other environment value. -/
theorem C9_default_config_outcome (env : String → Option String) :
    (validate_config (mkDefaultConfig env) = Except.ok () ↔
      truthy (env "DEEPGRAM_API_KEY") = true ∧ truthy (env "OPENAI_API_KEY") = true) ∧
    (∀ env2 : String → Option String,
      env2 "DEEPGRAM_API_KEY" = env "DEEPGRAM_API_KEY" →
      env2 "OPENAI_API_KEY" = env "OPENAI_API_KEY" →
      validate_config (mkDefaultConfig env2) = validate_config (mkDefaultConfig env)) := by
  constructor
  · rw [validate_config_ok_iff]
    simp [mkDefaultConfig, rule_table, getattr, opt_in,
      TRANSCRIPTION_DOMAIN, RESPONSE_DOMAIN, TTS_DOMAIN]
  · intro env2 hdg hoa
    simp [validate_config, _validate_model, _validate_api_key, mkDefaultConfig,
      getattr, opt_in, andThen, TRANSCRIPTION_DOMAIN, RESPONSE_DOMAIN, TTS_DOMAIN,
      hdg, hoa]

/-- C9 witness: concrete environments — with both keys set validation
succeeds, and changing only an unrelated value (`ELEVENLABS_API_KEY`) leaves
the outcome unchanged. -/
theorem C9_default_config_outcome_witness :
    validate_config (mkDefaultConfig (fun a =>
      if a = "DEEPGRAM_API_KEY" then some "dg" else
      if a = "OPENAI_API_KEY" then some "oa" else none)) = Except.ok () ∧
    validate_config (mkDefaultConfig (fun a =>
      if a = "DEEPGRAM_API_KEY" then some "dg" else
      if a = "OPENAI_API_KEY" then some "oa" else
      if a = "ELEVENLABS_API_KEY" then some "el" else none)) =
      validate_config (mkDefaultConfig (fun a =>
        if a = "DEEPGRAM_API_KEY" then some "dg" else
        if a = "OPENAI_API_KEY" then some "oa" else none)) :=
  ⟨(C9_default_config_outcome _).1.2 ⟨by decide, by decide⟩,
   (C9_default_config_outcome _).2 _ (by decide) (by decide)⟩

/-- C10: `validate_config` never examines `PIPER_SERVER_URL`,
`LOCAL_MODEL_PATH`, or any field other than the three provider selections
and the five credentials named in the rule table: two states agreeing on
those eight fields validate identically; in particular, with
`TTS_MODEL = "piper"` and the other fields in-domain with their required
credentials present, validation succeeds whatever `PIPER_SERVER_URL` holds
(absent or empty included). -/
theorem C10_ignores_unrelated_fields :
    (∀ c1 c2 : Config,
      c1.TRANSCRIPTION_MODEL = c2.TRANSCRIPTION_MODEL →
      c1.RESPONSE_MODEL = c2.RESPONSE_MODEL →
      c1.TTS_MODEL = c2.TTS_MODEL →
      c1.OPENAI_API_KEY = c2.OPENAI_API_KEY →
      c1.GROQ_API_KEY = c2.GROQ_API_KEY →
      c1.DEEPGRAM_API_KEY = c2.DEEPGRAM_API_KEY →
      c1.ELEVENLABS_API_KEY = c2.ELEVENLABS_API_KEY →
      c1.CARTESIA_API_KEY = c2.CARTESIA_API_KEY →
      validate_config c1 = validate_config c2) ∧
    (∀ c : Config, c.TTS_MODEL = "piper" →
      c.TRANSCRIPTION_MODEL ∈ TRANSCRIPTION_DOMAIN →
      c.RESPONSE_MODEL ∈ RESPONSE_DOMAIN →
      (∀ r ∈ rule_table, getattr c r.1 = some r.2.1 → truthy (getattr c r.2.2) = true) →
      validate_config c = Except.ok ()) := by
  constructor
  · intro c1 c2 h1 h2 h3 h4 h5 h6 h7 h8
    simp [validate_config, _validate_model, _validate_api_key, getattr, opt_in,
      andThen, h1, h2, h3, h4, h5, h6, h7, h8]
  · intro c hp h1 h2 hcred
    rw [validate_config_ok_iff]
    refine ⟨?_, ?_, ?_, hcred⟩
    · rw [getattr_TRANSCRIPTION]
      exact (opt_in_eq_true _ _).2 h1
    · rw [getattr_RESPONSE]
      exact (opt_in_eq_true _ _).2 h2
    · rw [getattr_TTS, hp]
      decide

/-- C10 witness: two states differing only in `PIPER_SERVER_URL` and
`LOCAL_MODEL_PATH` validate identically, and a `piper` selection validates
with `PIPER_SERVER_URL` absent. -/
theorem C10_ignores_unrelated_fields_witness :
    validate_config { cfg_base with
      PIPER_SERVER_URL := some "http://localhost:5000"
      LOCAL_MODEL_PATH := some "/models/m.bin" } = validate_config cfg_base ∧
    validate_config { cfg_base with
      TRANSCRIPTION_MODEL := "local"
      RESPONSE_MODEL := "ollama"
      TTS_MODEL := "piper"
      PIPER_SERVER_URL := none } = Except.ok () :=
  ⟨C10_ignores_unrelated_fields.1 _ _ rfl rfl rfl rfl rfl rfl rfl rfl,
   C10_ignores_unrelated_fields.2 _ (by decide) (by decide) (by decide) (by decide)⟩
